import Mathlib

/-!
Shallow embedding of `delete_inactive_load_balancers.py` (LoadBalancerCleaner).

Time is modelled as rational seconds since the UTC epoch; ages are rational
days.  The wall clock is a stream `Nat → ℚ`: every call the script makes to
the current-time function consumes one tick, mirroring the source where
`get_age_days` calls `datetime.now(timezone.utc)` on each invocation.
Gateway (AWS API) calls are modelled by an environment of response
functions; a `ClientError` is an `Except.error`.  Mutating gateway calls
are recorded in an action trace.
-/

/-- One entry of `TargetHealthDescriptions`; `state` is the string at
`TargetHealth.State` (empty when the key is absent, as `get` defaults). -/
structure TargetHealthDescription where
  state : String
deriving Repr, DecidableEq

/-- One entry of the `TargetGroups` list returned by `describe_target_groups`. -/
structure TargetGroup where
  targetGroupArn : String
deriving Repr, DecidableEq

/-- An ELBv2 (ALB/NLB) record as consumed by the script. -/
structure ElbV2LoadBalancer where
  loadBalancerName : String
  loadBalancerArn : String
  lbType : String
  createdTime : Option ℚ
deriving Repr, DecidableEq

/-- A Classic ELB record as consumed by the script. -/
structure ClassicLoadBalancer where
  loadBalancerName : String
  instances : List String
  createdTime : Option ℚ
deriving Repr, DecidableEq

/-- The gateway: every AWS call the script performs, as response data.
`Except.error` models a `ClientError` raised by the call; the `…Ok`
fields give the success/failure of the mutating calls. -/
structure AwsEnv where
  elbv2LoadBalancers : Except String (List ElbV2LoadBalancer)
  classicLoadBalancers : Except String (List ClassicLoadBalancer)
  targetGroups : String → Except String (List TargetGroup)
  targetHealth : String → Except String (List TargetHealthDescription)
  elbv2Tags : String → Except String (List (String × String))
  classicTags : String → Except String (List (String × String))
  lbAttributes : String → Except String (List (String × String))
  modifyAttributesOk : String → Bool
  deleteElbv2Ok : String → Bool
  deleteClassicOk : String → Bool

/-- The cleaner's configuration (constructor arguments of
`LoadBalancerCleaner`). -/
structure CleanerConfig where
  dryRun : Bool
  minAgeDays : ℤ
  filterTagKey : Option String
  filterTagValue : Option String
deriving Repr, DecidableEq

/-- `except`-to-default: the script catches `ClientError` and returns the
empty value at every read call site. -/
def orEmpty {α : Type} (e : Except String (List α)) : List α :=
  match e with
  | .ok l => l
  | .error _ => []

/-- `get_all_load_balancers_v2`: list ELBv2 LBs, `[]` on error. -/
def get_all_load_balancers_v2 (env : AwsEnv) : List ElbV2LoadBalancer :=
  orEmpty env.elbv2LoadBalancers

/-- `get_target_groups_for_lb`: list target groups of an LB, `[]` on error. -/
def get_target_groups_for_lb (env : AwsEnv) (loadBalancerArn : String) : List TargetGroup :=
  orEmpty (env.targetGroups loadBalancerArn)

/-- Python's `str.lower()` on the ASCII strings the script compares
(health states and attribute values), character by character. -/
def pyLower (s : String) : String := ⟨s.data.map Char.toLower⟩

/-- The states counted as active in `has_active_targets` (source line 78). -/
def activeStates : List String := ["healthy", "initial", "draining"]

/-- `has_active_targets`: true iff some reported target of the group is in
state healthy, initial or draining (case-insensitive); `False` on error. -/
def has_active_targets (env : AwsEnv) (targetGroupArn : String) : Bool :=
  match env.targetHealth targetGroupArn with
  | .error _ => false
  | .ok targets => targets.any (fun t => activeStates.contains (pyLower t.state))

/-- `is_elbv2_inactive`: no target groups counts as inactive; otherwise
inactive iff no target group has active targets. -/
def is_elbv2_inactive (env : AwsEnv) (lb : ElbV2LoadBalancer) : Bool :=
  let target_groups := get_target_groups_for_lb env lb.loadBalancerArn
  if target_groups.isEmpty then true
  else !(target_groups.any (fun tg => has_active_targets env tg.targetGroupArn))

/-- `get_all_classic_load_balancers`: list Classic ELBs, `[]` on error. -/
def get_all_classic_load_balancers (env : AwsEnv) : List ClassicLoadBalancer :=
  orEmpty env.classicLoadBalancers

/-- `is_classic_elb_inactive`: inactive iff no instances attached. -/
def is_classic_elb_inactive (lb : ClassicLoadBalancer) : Bool :=
  lb.instances.length == 0

/-- `get_age_days` with the sampled `now` made explicit: age in fractional
days, `(now - created_time).total_seconds() / 86400.0`. -/
def get_age_days (now created_time : ℚ) : ℚ :=
  (now - created_time) / 86400

/-- `is_older_than_threshold` with the sampled `now` made explicit:
`age_days >= min_age_days`. -/
def is_older_than_threshold (min_age_days : ℤ) (now created_time : ℚ) : Bool :=
  decide ((min_age_days : ℚ) ≤ get_age_days now created_time)

/-- `get_elbv2_tags`: tag dictionary of an ELBv2 LB, `{}` on error. -/
def get_elbv2_tags (env : AwsEnv) (loadBalancerArn : String) : List (String × String) :=
  orEmpty (env.elbv2Tags loadBalancerArn)

/-- `get_classic_elb_tags`: tag dictionary of a Classic ELB, `{}` on error. -/
def get_classic_elb_tags (env : AwsEnv) (loadBalancerName : String) : List (String × String) :=
  orEmpty (env.classicTags loadBalancerName)

/-- Python truthiness of an `Optional[str]`: `None` and `""` are falsy. -/
def truthyStr (o : Option String) : Bool :=
  match o with
  | none => false
  | some s => !(s == "")

/-- `has_required_tag`: no (truthy) filter key accepts everything; a
configured key must be present; a (truthy) configured value must then be
equal, otherwise presence of the key suffices. -/
def has_required_tag (filter_tag_key filter_tag_value : Option String)
    (tags : List (String × String)) : Bool :=
  if !(truthyStr filter_tag_key) then true
  else
    match tags.lookup (filter_tag_key.getD "") with
    | none => false
    | some tag_value =>
      if truthyStr filter_tag_value then tag_value == filter_tag_value.getD ""
      else true

/-- `get_deletion_protection`: first attribute with key
`deletion_protection.enabled`, compared (lowercased) to `"true"`;
`False` when missing or on error. -/
def get_deletion_protection (env : AwsEnv) (loadBalancerArn : String) : Bool :=
  match env.lbAttributes loadBalancerArn with
  | .error _ => false
  | .ok attributes =>
    match attributes.lookup "deletion_protection.enabled" with
    | some v => pyLower v == "true"
    | none => false

/-- A mutating gateway call issued by the script. -/
inductive GatewayAction where
  | modifyLoadBalancerAttributes (arn : String) (deletionProtectionEnabled : Bool)
  | deleteLoadBalancerV2 (arn : String)
  | deleteLoadBalancerClassic (name : String)
deriving Repr, DecidableEq

/-- `disable_deletion_protection`: issues the modify call (always recorded)
and returns whether it succeeded. -/
def disable_deletion_protection (env : AwsEnv) (loadBalancerArn : String) :
    Bool × List GatewayAction :=
  (env.modifyAttributesOk loadBalancerArn,
   [GatewayAction.modifyLoadBalancerAttributes loadBalancerArn false])

/-- `delete_elbv2`: with protection checking, a protected LB has its
protection disabled first, and a failed disable abandons the deletion
(returns `False`, no delete call); otherwise the delete call is issued
and its success returned. -/
def delete_elbv2 (env : AwsEnv) (loadBalancerArn : String) (check_protection : Bool) :
    Bool × List GatewayAction :=
  if check_protection && get_deletion_protection env loadBalancerArn then
    let r := disable_deletion_protection env loadBalancerArn
    if r.1 then
      (env.deleteElbv2Ok loadBalancerArn,
       r.2 ++ [GatewayAction.deleteLoadBalancerV2 loadBalancerArn])
    else (false, r.2)
  else
    (env.deleteElbv2Ok loadBalancerArn,
     [GatewayAction.deleteLoadBalancerV2 loadBalancerArn])

/-- `delete_classic_elb`: issues the delete call and returns its success. -/
def delete_classic_elb (env : AwsEnv) (loadBalancerName : String) :
    Bool × List GatewayAction :=
  (env.deleteClassicOk loadBalancerName,
   [GatewayAction.deleteLoadBalancerClassic loadBalancerName])

/-- Per-record outcome of the scan loop in `find_and_delete_inactive_lbs`:
the four reported verdicts plus the silent case of an active record. -/
inductive Verdict where
  | Eligible (ageDays : ℚ)
  | TooNew (ageDays : ℚ)
  | TagExcluded
  | NoTimestamp
  | NotInactive (ageDays : ℚ)
deriving Repr, DecidableEq

/-- The ELBv2 scan-loop body (source lines 285-313) as a verdict.  `now1`
is the clock value sampled by the `get_age_days` call, `now2` the one
sampled inside `is_older_than_threshold`. -/
def elbv2_verdict (env : AwsEnv) (filter_tag_key filter_tag_value : Option String)
    (min_age_days : ℤ) (now1 now2 : ℚ) (lb : ElbV2LoadBalancer) : Verdict :=
  if !(has_required_tag filter_tag_key filter_tag_value
        (get_elbv2_tags env lb.loadBalancerArn)) then
    Verdict.TagExcluded
  else
    match lb.createdTime with
    | some created =>
      let age_days := get_age_days now1 created
      if is_elbv2_inactive env lb then
        if is_older_than_threshold min_age_days now2 created then Verdict.Eligible age_days
        else Verdict.TooNew age_days
      else Verdict.NotInactive age_days
    | none => Verdict.NoTimestamp

/-- The Classic scan-loop body (source lines 351-378) as a verdict. -/
def classic_verdict (env : AwsEnv) (filter_tag_key filter_tag_value : Option String)
    (min_age_days : ℤ) (now1 now2 : ℚ) (lb : ClassicLoadBalancer) : Verdict :=
  if !(has_required_tag filter_tag_key filter_tag_value
        (get_classic_elb_tags env lb.loadBalancerName)) then
    Verdict.TagExcluded
  else
    match lb.createdTime with
    | some created =>
      let age_days := get_age_days now1 created
      if is_classic_elb_inactive lb then
        if is_older_than_threshold min_age_days now2 created then Verdict.Eligible age_days
        else Verdict.TooNew age_days
      else Verdict.NotInactive age_days
    | none => Verdict.NoTimestamp

/-- State of the ELBv2 scan pass: clock tick plus the loop's accumulators. -/
structure ElbV2ScanResult where
  tick : Nat
  inactiveElbv2 : List ElbV2LoadBalancer
  tooNewElbv2 : List (String × ℚ)
  skippedNoCreatedTime : Nat
  skippedNoTag : Nat
deriving Repr, DecidableEq

/-- State of the Classic scan pass. -/
structure ClassicScanResult where
  tick : Nat
  inactiveClassic : List ClassicLoadBalancer
  tooNewClassic : List (String × ℚ)
  skippedNoCreatedTime : Nat
  skippedNoTag : Nat
deriving Repr, DecidableEq

/-- State of the deletion passes: clock tick, the shared deleted/skipped
counters, the dry-run would-delete report, and the mutating-call trace. -/
structure DeletePhaseState where
  tick : Nat
  deletedCount : Nat
  skippedCount : Nat
  wouldDelete : List (String × ℚ)
  trace : List GatewayAction
deriving Repr, DecidableEq

/-- One iteration of the ELBv2 scan loop.  A tag-excluded or
timestamp-less record consumes no clock tick (no age is computed); the
other cases consume two (`get_age_days` and `is_older_than_threshold`
each sample `now` once). -/
def elbv2_scan_step (env : AwsEnv) (cfg : CleanerConfig) (clock : Nat → ℚ)
    (s : ElbV2ScanResult) (lb : ElbV2LoadBalancer) : ElbV2ScanResult :=
  match elbv2_verdict env cfg.filterTagKey cfg.filterTagValue cfg.minAgeDays
      (clock s.tick) (clock (s.tick + 1)) lb with
  | Verdict.TagExcluded => { s with skippedNoTag := s.skippedNoTag + 1 }
  | Verdict.NoTimestamp => { s with skippedNoCreatedTime := s.skippedNoCreatedTime + 1 }
  | Verdict.Eligible _ =>
    { s with tick := s.tick + 2, inactiveElbv2 := s.inactiveElbv2 ++ [lb] }
  | Verdict.TooNew age =>
    { s with tick := s.tick + 2, tooNewElbv2 := s.tooNewElbv2 ++ [(lb.loadBalancerName, age)] }
  | Verdict.NotInactive _ => { s with tick := s.tick + 2 }

/-- One iteration of the Classic scan loop. -/
def classic_scan_step (env : AwsEnv) (cfg : CleanerConfig) (clock : Nat → ℚ)
    (s : ClassicScanResult) (lb : ClassicLoadBalancer) : ClassicScanResult :=
  match classic_verdict env cfg.filterTagKey cfg.filterTagValue cfg.minAgeDays
      (clock s.tick) (clock (s.tick + 1)) lb with
  | Verdict.TagExcluded => { s with skippedNoTag := s.skippedNoTag + 1 }
  | Verdict.NoTimestamp => { s with skippedNoCreatedTime := s.skippedNoCreatedTime + 1 }
  | Verdict.Eligible _ =>
    { s with tick := s.tick + 2, inactiveClassic := s.inactiveClassic ++ [lb] }
  | Verdict.TooNew age =>
    { s with tick := s.tick + 2, tooNewClassic := s.tooNewClassic ++ [(lb.loadBalancerName, age)] }
  | Verdict.NotInactive _ => { s with tick := s.tick + 2 }

/-- One iteration of the ELBv2 deletion loop (source lines 317-330): the
age is recomputed (one more `now` sample when a timestamp exists); in
dry-run the record is only reported, otherwise `delete_elbv2` is called
and its outcome tallied. -/
def elbv2_delete_step (env : AwsEnv) (cfg : CleanerConfig) (clock : Nat → ℚ)
    (check_protection : Bool) (s : DeletePhaseState) (lb : ElbV2LoadBalancer) :
    DeletePhaseState :=
  let p : ℚ × Nat :=
    match lb.createdTime with
    | some created => (get_age_days (clock s.tick) created, s.tick + 1)
    | none => (0, s.tick)
  if cfg.dryRun then
    { s with tick := p.2, wouldDelete := s.wouldDelete ++ [(lb.loadBalancerName, p.1)] }
  else
    let r := delete_elbv2 env lb.loadBalancerArn check_protection
    if r.1 then
      { s with tick := p.2, deletedCount := s.deletedCount + 1, trace := s.trace ++ r.2 }
    else
      { s with tick := p.2, skippedCount := s.skippedCount + 1, trace := s.trace ++ r.2 }

/-- One iteration of the Classic deletion loop (source lines 382-394). -/
def classic_delete_step (env : AwsEnv) (cfg : CleanerConfig) (clock : Nat → ℚ)
    (s : DeletePhaseState) (lb : ClassicLoadBalancer) : DeletePhaseState :=
  let p : ℚ × Nat :=
    match lb.createdTime with
    | some created => (get_age_days (clock s.tick) created, s.tick + 1)
    | none => (0, s.tick)
  if cfg.dryRun then
    { s with tick := p.2, wouldDelete := s.wouldDelete ++ [(lb.loadBalancerName, p.1)] }
  else
    let r := delete_classic_elb env lb.loadBalancerName
    if r.1 then
      { s with tick := p.2, deletedCount := s.deletedCount + 1, trace := s.trace ++ r.2 }
    else
      { s with tick := p.2, skippedCount := s.skippedCount + 1, trace := s.trace ++ r.2 }

/-- Everything `find_and_delete_inactive_lbs` reports or does. -/
structure RunResult where
  inactiveElbv2 : List ElbV2LoadBalancer
  tooNewElbv2 : List (String × ℚ)
  skippedNoCreatedTime : Nat
  skippedNoTag : Nat
  inactiveClassic : List ClassicLoadBalancer
  tooNewClassic : List (String × ℚ)
  skippedNoCreatedTimeClassic : Nat
  skippedNoTagClassic : Nat
  deletedCount : Nat
  skippedCount : Nat
  wouldDelete : List (String × ℚ)
  trace : List GatewayAction
  finalTick : Nat
deriving Repr, DecidableEq

/-- `find_and_delete_inactive_lbs`: scan ELBv2, process its eligible list,
then scan Classic and process its eligible list, threading the clock and
the shared `deleted_count`/`skipped_count`. -/
def find_and_delete_inactive_lbs (env : AwsEnv) (cfg : CleanerConfig)
    (clock : Nat → ℚ) (check_protection : Bool) : RunResult :=
  let s1 := (get_all_load_balancers_v2 env).foldl
    (elbv2_scan_step env cfg clock) ⟨0, [], [], 0, 0⟩
  let d1 := s1.inactiveElbv2.foldl
    (elbv2_delete_step env cfg clock check_protection) ⟨s1.tick, 0, 0, [], []⟩
  let s2 := (get_all_classic_load_balancers env).foldl
    (classic_scan_step env cfg clock) ⟨d1.tick, [], [], 0, 0⟩
  let d2 := s2.inactiveClassic.foldl
    (classic_delete_step env cfg clock) { d1 with tick := s2.tick }
  { inactiveElbv2 := s1.inactiveElbv2
    tooNewElbv2 := s1.tooNewElbv2
    skippedNoCreatedTime := s1.skippedNoCreatedTime
    skippedNoTag := s1.skippedNoTag
    inactiveClassic := s2.inactiveClassic
    tooNewClassic := s2.tooNewClassic
    skippedNoCreatedTimeClassic := s2.skippedNoCreatedTime
    skippedNoTagClassic := s2.skippedNoTag
    deletedCount := d2.deletedCount
    skippedCount := d2.skippedCount
    wouldDelete := d2.wouldDelete
    trace := d2.trace
    finalTick := d2.tick }

/-! ## Helper lemmas -/

lemma has_active_targets_eq_false_iff (env : AwsEnv) (tgArn : String) :
    has_active_targets env tgArn = false ↔
      ∀ th ∈ orEmpty (env.targetHealth tgArn), pyLower th.state ∉ activeStates := by
  unfold has_active_targets orEmpty
  cases env.targetHealth tgArn with
  | error e => simp
  | ok l => simp [List.any_eq_false]

lemma is_elbv2_inactive_eq_not_any (env : AwsEnv) (lb : ElbV2LoadBalancer) :
    is_elbv2_inactive env lb =
      !((get_target_groups_for_lb env lb.loadBalancerArn).any
          (fun tg => has_active_targets env tg.targetGroupArn)) := by
  unfold is_elbv2_inactive
  cases h : get_target_groups_for_lb env lb.loadBalancerArn with
  | nil => simp
  | cons a l => simp

/-! ## Claims -/

/-- C2: a record is classified inactive iff it has zero members with active
liveness — Modern: no reported target-group member in state healthy,
initial or draining across all its target groups (zero target groups
counting as inactive); Legacy: zero attached instances. -/
theorem claim_C2_inactive_iff_no_active_members (env : AwsEnv)
    (lb : ElbV2LoadBalancer) (clb : ClassicLoadBalancer) :
    (is_elbv2_inactive env lb = true ↔
      ∀ tg ∈ get_target_groups_for_lb env lb.loadBalancerArn,
        ∀ th ∈ orEmpty (env.targetHealth tg.targetGroupArn),
          pyLower th.state ∉ activeStates) ∧
    (is_classic_elb_inactive clb = true ↔ clb.instances.length = 0) := by
  constructor
  · rw [is_elbv2_inactive_eq_not_any, Bool.not_eq_true', List.any_eq_false]
    constructor
    · intro h tg htg
      exact (has_active_targets_eq_false_iff env tg.targetGroupArn).mp
        (Bool.not_eq_true _ ▸ h tg htg)
    · intro h tg htg
      rw [(has_active_targets_eq_false_iff env tg.targetGroupArn).mpr (h tg htg)]
      simp
  · simp [is_classic_elb_inactive]

/-- C3: the tag predicate matches when no filter key is configured; never
matches when the key is configured but absent; matches on key presence
when no value is configured; with key and value both configured, matches
iff the record's value is exactly the configured one. -/
theorem claim_C3_tag_predicate (tags : List (String × String))
    (fv : Option String) (k v tv : String) :
    (has_required_tag none fv tags = true) ∧
    (k ≠ "" → tags.lookup k = none → has_required_tag (some k) fv tags = false) ∧
    (k ≠ "" → tags.lookup k = some tv → has_required_tag (some k) none tags = true) ∧
    (k ≠ "" → v ≠ "" → tags.lookup k = some tv →
      (has_required_tag (some k) (some v) tags = true ↔ tv = v)) := by
  refine ⟨rfl, ?_, ?_, ?_⟩
  · intro hk hnone
    simp [has_required_tag, truthyStr, hk, hnone]
  · intro hk hsome
    simp [has_required_tag, truthyStr, hk, hsome]
  · intro hk hv hsome
    simp [has_required_tag, truthyStr, hk, hv, hsome]

/-- Witness for C3: a record tagged Owner=team-y does not match the filter
Owner=team-x, but matches a key-only Owner filter. -/
theorem claim_C3_tag_predicate_witness :
    (has_required_tag (some "Owner") (some "team-x") [("Owner", "team-y")] = true ↔
      "team-y" = "team-x") ∧
    has_required_tag (some "Owner") none [("Owner", "team-y")] = true := by
  constructor
  · exact (claim_C3_tag_predicate [("Owner", "team-y")] (some "team-x") "Owner" "team-x"
      "team-y").2.2.2 (by decide) (by decide) (by decide)
  · exact (claim_C3_tag_predicate [("Owner", "team-y")] none "Owner" "team-x"
      "team-y").2.2.1 (by decide) (by decide)

/-- C9: an empty-string configured filter value is treated as no value
(key presence suffices), and an empty-string configured filter key is
treated as no filter at all (everything matches). -/
theorem claim_C9_empty_string_filters (tags : List (String × String))
    (fv : Option String) (k tv : String) :
    (k ≠ "" → tags.lookup k = some tv →
      has_required_tag (some k) (some "") tags = true) ∧
    (has_required_tag (some "") fv tags = true) := by
  constructor
  · intro hk hsome
    simp [has_required_tag, truthyStr, hk, hsome]
  · rfl

/-- Witness for C9: value-empty filter matches on key presence alone. -/
theorem claim_C9_empty_string_filters_witness :
    has_required_tag (some "Owner") (some "") [("Owner", "anything")] = true :=
  (claim_C9_empty_string_filters [("Owner", "anything")] none "Owner" "anything").1
    (by decide) (by decide)

/-- C10: a gateway error while listing a Modern record's target groups
yields the empty list, so the record is classified inactive; when it is
also tag-matched, timestamped and old enough, its verdict is Eligible. -/
theorem claim_C10_tg_listing_error_means_inactive (env : AwsEnv)
    (lb : ElbV2LoadBalancer) (e : String) (fk fv : Option String) (d : ℤ)
    (now t : ℚ)
    (herr : env.targetGroups lb.loadBalancerArn = Except.error e) :
    is_elbv2_inactive env lb = true ∧
    (lb.createdTime = some t →
      has_required_tag fk fv (get_elbv2_tags env lb.loadBalancerArn) = true →
      (d : ℚ) ≤ get_age_days now t →
      elbv2_verdict env fk fv d now now lb = Verdict.Eligible (get_age_days now t)) := by
  have hinactive : is_elbv2_inactive env lb = true := by
    unfold is_elbv2_inactive get_target_groups_for_lb
    rw [herr]
    rfl
  refine ⟨hinactive, ?_⟩
  intro hc htag hage
  unfold elbv2_verdict
  rw [htag, hc]
  simp [hinactive, is_older_than_threshold, hage]

/-- C1: for an inactive, tag-matched record with a creation timestamp and a
non-negative threshold, the verdict is Eligible iff the computed age (in
fractional days, from the sampled `now`) is at least the threshold, and
TooNew iff the age is below it — the boundary age = threshold is Eligible. -/
theorem claim_C1_age_threshold_verdict (env : AwsEnv) (fk fv : Option String)
    (d : ℤ) (now t : ℚ) (lb : ElbV2LoadBalancer)
    (_hd : 0 ≤ d) (hc : lb.createdTime = some t)
    (htag : has_required_tag fk fv (get_elbv2_tags env lb.loadBalancerArn) = true)
    (hin : is_elbv2_inactive env lb = true) :
    (elbv2_verdict env fk fv d now now lb = Verdict.Eligible (get_age_days now t) ↔
      (d : ℚ) ≤ get_age_days now t) ∧
    (elbv2_verdict env fk fv d now now lb = Verdict.TooNew (get_age_days now t) ↔
      get_age_days now t < (d : ℚ)) := by
  unfold elbv2_verdict
  rw [htag, hc]
  by_cases hage : (d : ℚ) ≤ get_age_days now t
  · simp [hin, is_older_than_threshold, hage, not_lt.mpr hage]
  · simp [hin, is_older_than_threshold, hage, not_le.mp hage]

/-- Witness for C1: an inactive, untagged-filter record aged exactly 2 days
with threshold 2 is Eligible (boundary), and with threshold 3 is TooNew. -/
theorem claim_C1_age_threshold_verdict_witness :
    elbv2_verdict
      ⟨Except.ok [], Except.ok [], fun _ => Except.ok [], fun _ => Except.ok [],
       fun _ => Except.ok [], fun _ => Except.ok [], fun _ => Except.ok [],
       fun _ => true, fun _ => true, fun _ => true⟩
      none none 2 172800 172800 ⟨"lb-a", "arn-a", "application", some 0⟩ =
      Verdict.Eligible 2 := by
  have h := (claim_C1_age_threshold_verdict
    ⟨Except.ok [], Except.ok [], fun _ => Except.ok [], fun _ => Except.ok [],
     fun _ => Except.ok [], fun _ => Except.ok [], fun _ => Except.ok [],
     fun _ => true, fun _ => true, fun _ => true⟩
    none none 2 172800 0 ⟨"lb-a", "arn-a", "application", some 0⟩
    (by decide) rfl (by decide) (by decide)).1.mpr (by norm_num [get_age_days])
  have hage : get_age_days 172800 0 = 2 := by norm_num [get_age_days]
  rw [hage] at h
  exact h

/-- C6: a record whose tag match fails receives verdict TagExcluded for
every environment, threshold, clock value and creation timestamp (in
particular, a tag-excluded record with no timestamp is TagExcluded, not
NoTimestamp), for both families. -/
theorem claim_C6_tag_excluded_short_circuits (env : AwsEnv)
    (fk fv : Option String) (d : ℤ) (now1 now2 : ℚ)
    (lb : ElbV2LoadBalancer) (clb : ClassicLoadBalancer)
    (h1 : has_required_tag fk fv (get_elbv2_tags env lb.loadBalancerArn) = false)
    (h2 : has_required_tag fk fv (get_classic_elb_tags env clb.loadBalancerName) = false) :
    elbv2_verdict env fk fv d now1 now2 lb = Verdict.TagExcluded ∧
    classic_verdict env fk fv d now1 now2 clb = Verdict.TagExcluded := by
  constructor
  · unfold elbv2_verdict
    rw [h1]
    rfl
  · unfold classic_verdict
    rw [h2]
    rfl

/-- Witness for C6: with filter Owner=team-x and empty tag sets, a Modern
record with NO creation timestamp and a Classic record are both
TagExcluded (the timestamp-less one is not counted as NoTimestamp). -/
theorem claim_C6_tag_excluded_short_circuits_witness :
    elbv2_verdict
      ⟨Except.ok [], Except.ok [], fun _ => Except.ok [], fun _ => Except.ok [],
       fun _ => Except.ok [], fun _ => Except.ok [], fun _ => Except.ok [],
       fun _ => true, fun _ => true, fun _ => true⟩
      (some "Owner") (some "team-x") 2 0 0
      ⟨"lb-b", "arn-b", "network", none⟩ = Verdict.TagExcluded ∧
    classic_verdict
      ⟨Except.ok [], Except.ok [], fun _ => Except.ok [], fun _ => Except.ok [],
       fun _ => Except.ok [], fun _ => Except.ok [], fun _ => Except.ok [],
       fun _ => true, fun _ => true, fun _ => true⟩
      (some "Owner") (some "team-x") 2 0 0
      ⟨"classic-b", ["i-1"], none⟩ = Verdict.TagExcluded :=
  claim_C6_tag_excluded_short_circuits _ (some "Owner") (some "team-x") 2 0 0
    ⟨"lb-b", "arn-b", "network", none⟩ ⟨"classic-b", ["i-1"], none⟩
    (by decide) (by decide)

/-- Witness for C10: with a failing target-group listing, a tag-matched,
5-day-old record is inactive and Eligible at threshold 2. -/
theorem claim_C10_tg_listing_error_means_inactive_witness :
    is_elbv2_inactive
      ⟨Except.ok [], Except.ok [], fun _ => Except.error "throttled",
       fun _ => Except.ok [], fun _ => Except.ok [], fun _ => Except.ok [],
       fun _ => Except.ok [], fun _ => true, fun _ => true, fun _ => true⟩
      ⟨"lb-c", "arn-c", "application", some 0⟩ = true ∧
    elbv2_verdict
      ⟨Except.ok [], Except.ok [], fun _ => Except.error "throttled",
       fun _ => Except.ok [], fun _ => Except.ok [], fun _ => Except.ok [],
       fun _ => Except.ok [], fun _ => true, fun _ => true, fun _ => true⟩
      none none 2 432000 432000 ⟨"lb-c", "arn-c", "application", some 0⟩ =
      Verdict.Eligible (get_age_days 432000 0) := by
  have h := claim_C10_tg_listing_error_means_inactive
    ⟨Except.ok [], Except.ok [], fun _ => Except.error "throttled",
     fun _ => Except.ok [], fun _ => Except.ok [], fun _ => Except.ok [],
     fun _ => Except.ok [], fun _ => true, fun _ => true, fun _ => true⟩
    ⟨"lb-c", "arn-c", "application", some 0⟩ "throttled" none none 2 432000 0 rfl
  exact ⟨h.1, h.2 rfl (by decide) (by norm_num [get_age_days])⟩

/-- A gateway where every listing succeeds with empty data and every
mutating call succeeds: every record looks inactive and untagged. -/
def envAllEmpty : AwsEnv :=
  ⟨Except.ok [], Except.ok [], fun _ => Except.ok [], fun _ => Except.ok [],
   fun _ => Except.ok [], fun _ => Except.ok [], fun _ => Except.ok [],
   fun _ => true, fun _ => true, fun _ => true⟩

/-- A record whose creation timestamp lies one day after the clock value 0. -/
def lbFuture : ElbV2LoadBalancer := ⟨"future-lb", "arn-future", "application", some 86400⟩

/-- Counterexample to C7: with threshold 0, an inactive, tag-matched record
created in the future (negative age) is TooNew, not Eligible. -/
theorem claim_C7_counterexample :
    is_elbv2_inactive envAllEmpty lbFuture = true ∧
    has_required_tag none none (get_elbv2_tags envAllEmpty lbFuture.loadBalancerArn) = true ∧
    lbFuture.createdTime = some 86400 ∧
    get_age_days 0 86400 < 0 ∧
    get_age_days 0 86400 = -1 ∧
    elbv2_verdict envAllEmpty none none 0 0 0 lbFuture = Verdict.TooNew (-1) := by
  have hage : get_age_days 0 86400 = -1 := by norm_num [get_age_days]
  refine ⟨rfl, rfl, rfl, by norm_num [get_age_days], hage, ?_⟩
  have hold : is_older_than_threshold 0 0 86400 = false := by
    simp only [is_older_than_threshold, decide_eq_false_iff_not, not_le, hage]
    norm_num
  unfold elbv2_verdict
  simp only [show has_required_tag none none
      (get_elbv2_tags envAllEmpty lbFuture.loadBalancerArn) = true from rfl,
    Bool.not_true, Bool.false_eq_true, if_false,
    show lbFuture.createdTime = some 86400 from rfl,
    show is_elbv2_inactive envAllEmpty lbFuture = true from rfl, if_true, hold,
    Bool.false_eq_true, hage]

/-- C7 as amended: with threshold 0, every inactive, tag-matched record
with a creation timestamp whose computed age is non-negative (timestamp
not after the sampled now) is Eligible, however small the age. -/
theorem claim_C7_amended_zero_threshold (env : AwsEnv) (fk fv : Option String)
    (now t : ℚ) (lb : ElbV2LoadBalancer)
    (hc : lb.createdTime = some t)
    (htag : has_required_tag fk fv (get_elbv2_tags env lb.loadBalancerArn) = true)
    (hin : is_elbv2_inactive env lb = true)
    (hage : 0 ≤ get_age_days now t) :
    elbv2_verdict env fk fv 0 now now lb = Verdict.Eligible (get_age_days now t) := by
  unfold elbv2_verdict
  rw [htag, hc]
  simp only [hin, if_true]
  rw [show is_older_than_threshold 0 now t = true by
    simpa [is_older_than_threshold] using hage]
  simp

/-- Witness for the amended C7: threshold 0 makes a one-second-old inactive
record Eligible. -/
theorem claim_C7_amended_zero_threshold_witness :
    elbv2_verdict envAllEmpty none none 0 1 1
      ⟨"young-lb", "arn-young", "application", some 0⟩ =
      Verdict.Eligible (get_age_days 1 0) :=
  claim_C7_amended_zero_threshold envAllEmpty none none 1 0
    ⟨"young-lb", "arn-young", "application", some 0⟩ rfl rfl rfl
    (by norm_num [get_age_days])

/-! ## Dry-run lemmas -/

lemma elbv2_delete_step_dry (env : AwsEnv) (cfg : CleanerConfig) (clock : Nat → ℚ)
    (cp : Bool) (h : cfg.dryRun = true) (s : DeletePhaseState)
    (lb : ElbV2LoadBalancer) :
    (elbv2_delete_step env cfg clock cp s lb).trace = s.trace ∧
    (elbv2_delete_step env cfg clock cp s lb).wouldDelete.length =
      s.wouldDelete.length + 1 := by
  unfold elbv2_delete_step
  rw [h]
  simp

lemma classic_delete_step_dry (env : AwsEnv) (cfg : CleanerConfig) (clock : Nat → ℚ)
    (h : cfg.dryRun = true) (s : DeletePhaseState) (lb : ClassicLoadBalancer) :
    (classic_delete_step env cfg clock s lb).trace = s.trace ∧
    (classic_delete_step env cfg clock s lb).wouldDelete.length =
      s.wouldDelete.length + 1 := by
  unfold classic_delete_step
  rw [h]
  simp

lemma elbv2_delete_fold_dry (env : AwsEnv) (cfg : CleanerConfig) (clock : Nat → ℚ)
    (cp : Bool) (h : cfg.dryRun = true) (lbs : List ElbV2LoadBalancer) :
    ∀ s : DeletePhaseState,
      (lbs.foldl (elbv2_delete_step env cfg clock cp) s).trace = s.trace ∧
      (lbs.foldl (elbv2_delete_step env cfg clock cp) s).wouldDelete.length =
        s.wouldDelete.length + lbs.length := by
  induction lbs with
  | nil => intro s; simp
  | cons a l ih =>
    intro s
    rw [List.foldl_cons]
    obtain ⟨ht, hw⟩ := ih (elbv2_delete_step env cfg clock cp s a)
    obtain ⟨ht1, hw1⟩ := elbv2_delete_step_dry env cfg clock cp h s a
    refine ⟨ht.trans ht1, ?_⟩
    rw [hw, hw1, List.length_cons]
    omega

lemma classic_delete_fold_dry (env : AwsEnv) (cfg : CleanerConfig) (clock : Nat → ℚ)
    (h : cfg.dryRun = true) (lbs : List ClassicLoadBalancer) :
    ∀ s : DeletePhaseState,
      (lbs.foldl (classic_delete_step env cfg clock) s).trace = s.trace ∧
      (lbs.foldl (classic_delete_step env cfg clock) s).wouldDelete.length =
        s.wouldDelete.length + lbs.length := by
  induction lbs with
  | nil => intro s; simp
  | cons a l ih =>
    intro s
    rw [List.foldl_cons]
    obtain ⟨ht, hw⟩ := ih (classic_delete_step env cfg clock s a)
    obtain ⟨ht1, hw1⟩ := classic_delete_step_dry env cfg clock h s a
    refine ⟨ht.trans ht1, ?_⟩
    rw [hw, hw1, List.length_cons]
    omega

/-- C4: a dry-run invokes no mutating gateway call — the trace is empty —
and every eligible record is recorded as would-delete (one report entry
per eligible record of either family). -/
theorem claim_C4_dry_run_never_mutates (env : AwsEnv) (cfg : CleanerConfig)
    (clock : Nat → ℚ) (cp : Bool) (h : cfg.dryRun = true) :
    (find_and_delete_inactive_lbs env cfg clock cp).trace = [] ∧
    (find_and_delete_inactive_lbs env cfg clock cp).wouldDelete.length =
      (find_and_delete_inactive_lbs env cfg clock cp).inactiveElbv2.length +
        (find_and_delete_inactive_lbs env cfg clock cp).inactiveClassic.length := by
  unfold find_and_delete_inactive_lbs
  dsimp only
  constructor
  · rw [(classic_delete_fold_dry env cfg clock h _ _).1]
    dsimp only
    rw [(elbv2_delete_fold_dry env cfg clock cp h _ _).1]
  · rw [(classic_delete_fold_dry env cfg clock h _ _).2]
    dsimp only
    rw [(elbv2_delete_fold_dry env cfg clock cp h _ _).2]
    dsimp only [List.length_nil]
    omega

/-- Witness for C4: a concrete dry-run configuration yields an empty trace. -/
theorem claim_C4_dry_run_never_mutates_witness :
    (find_and_delete_inactive_lbs envAllEmpty ⟨true, 2, none, none⟩
      (fun n => (n : ℚ)) true).trace = [] :=
  (claim_C4_dry_run_never_mutates envAllEmpty ⟨true, 2, none, none⟩
    (fun n => (n : ℚ)) true rfl).1

/-- C5: in execute mode with protection checking, an eligible Modern record
with deletion protection enabled whose disable-protection call fails is
counted as a delete failure (skipped), and the delete call is never
issued: the only mutating call recorded is the failed modify. -/
theorem claim_C5_protection_disable_failure (env : AwsEnv) (cfg : CleanerConfig)
    (clock : Nat → ℚ) (s : DeletePhaseState) (lb : ElbV2LoadBalancer)
    (hdry : cfg.dryRun = false)
    (hprot : get_deletion_protection env lb.loadBalancerArn = true)
    (hfail : env.modifyAttributesOk lb.loadBalancerArn = false) :
    delete_elbv2 env lb.loadBalancerArn true =
      (false, [GatewayAction.modifyLoadBalancerAttributes lb.loadBalancerArn false]) ∧
    (elbv2_delete_step env cfg clock true s lb).skippedCount = s.skippedCount + 1 ∧
    (elbv2_delete_step env cfg clock true s lb).deletedCount = s.deletedCount ∧
    (elbv2_delete_step env cfg clock true s lb).trace =
      s.trace ++ [GatewayAction.modifyLoadBalancerAttributes lb.loadBalancerArn false] := by
  have hdel : delete_elbv2 env lb.loadBalancerArn true =
      (false, [GatewayAction.modifyLoadBalancerAttributes lb.loadBalancerArn false]) := by
    unfold delete_elbv2 disable_deletion_protection
    rw [hprot, hfail]
    rfl
  refine ⟨hdel, ?_⟩
  unfold elbv2_delete_step
  rw [hdry, hdel]
  simp

/-- An environment whose single Modern load balancer is protected and
whose modify-attributes call always fails. -/
def envProtectedFail : AwsEnv :=
  ⟨Except.ok [], Except.ok [], fun _ => Except.ok [], fun _ => Except.ok [],
   fun _ => Except.ok [], fun _ => Except.ok [],
   fun _ => Except.ok [("deletion_protection.enabled", "true")],
   fun _ => false, fun _ => true, fun _ => true⟩

/-- Witness for C5: the failed disable leaves only the modify call in the
trace, the record counted as skipped. -/
theorem claim_C5_protection_disable_failure_witness :
    delete_elbv2 envProtectedFail "arn-p" true =
      (false, [GatewayAction.modifyLoadBalancerAttributes "arn-p" false]) ∧
    (elbv2_delete_step envProtectedFail ⟨false, 2, none, none⟩ (fun n => (n : ℚ))
      true ⟨0, 0, 0, [], []⟩ ⟨"lb-p", "arn-p", "application", some 0⟩).skippedCount =
      0 + 1 := by
  have h := claim_C5_protection_disable_failure envProtectedFail
    ⟨false, 2, none, none⟩ (fun n => (n : ℚ)) ⟨0, 0, 0, [], []⟩
    ⟨"lb-p", "arn-p", "application", some 0⟩ rfl (by decide) rfl
  exact ⟨h.1, h.2.1⟩

/-- The age a verdict carries, when it carries one. -/
def verdictAgeDays : Verdict → Option ℚ
  | Verdict.Eligible a => some a
  | Verdict.TooNew a => some a
  | Verdict.NotInactive a => some a
  | Verdict.TagExcluded => none
  | Verdict.NoTimestamp => none

lemma elbv2_verdict_age (env : AwsEnv) (fk fv : Option String) (d : ℤ)
    (now1 now2 : ℚ) (lb : ElbV2LoadBalancer) (t a : ℚ)
    (hc : lb.createdTime = some t)
    (h : verdictAgeDays (elbv2_verdict env fk fv d now1 now2 lb) = some a) :
    a = get_age_days now1 t := by
  unfold elbv2_verdict at h
  by_cases htag : has_required_tag fk fv (get_elbv2_tags env lb.loadBalancerArn) = true
  · rw [htag, hc] at h
    simp only [Bool.not_true, Bool.false_eq_true, if_false] at h
    split_ifs at h <;> simp [verdictAgeDays] at h <;> exact h.symm
  · rw [Bool.not_eq_true] at htag
    rw [htag] at h
    simp [verdictAgeDays] at h

/-- Two Modern records sharing creation timestamp 0, both inactive. -/
def lbIdleA : ElbV2LoadBalancer := ⟨"idle-a", "arn-a", "application", some 0⟩

/-- Second record with the same creation timestamp as `lbIdleA`. -/
def lbIdleB : ElbV2LoadBalancer := ⟨"idle-b", "arn-b", "application", some 0⟩

/-- A gateway listing the two idle records and nothing else. -/
def envTwoIdle : AwsEnv :=
  ⟨Except.ok [lbIdleA, lbIdleB], Except.ok [], fun _ => Except.ok [],
   fun _ => Except.ok [], fun _ => Except.ok [], fun _ => Except.ok [],
   fun _ => Except.ok [], fun _ => true, fun _ => true, fun _ => true⟩

/-- Counterexample to C8: with a wall clock that advances one day per
current-time call, a dry run over two inactive records with EQUAL creation
timestamps reports DIFFERENT ages (0 days and 2 days): the source samples
`now` per `get_age_days` call, not once at run start. -/
theorem claim_C8_counterexample :
    lbIdleA.createdTime = lbIdleB.createdTime ∧
    (find_and_delete_inactive_lbs envTwoIdle ⟨true, 10, none, none⟩
      (fun n => 86400 * (n : ℚ)) true).tooNewElbv2 =
      [("idle-a", 0), ("idle-b", 2)] ∧
    (0 : ℚ) ≠ 2 := by
  refine ⟨rfl, ?_, by norm_num⟩
  norm_num [find_and_delete_inactive_lbs, get_all_load_balancers_v2,
    get_all_classic_load_balancers, envTwoIdle, orEmpty, elbv2_scan_step,
    elbv2_verdict, has_required_tag, truthyStr, get_elbv2_tags,
    is_elbv2_inactive, get_target_groups_for_lb, is_older_than_threshold,
    get_age_days, lbIdleA, lbIdleB, List.foldl]

/-- C8 as amended: each age computation samples the wall clock at the
moment of its own call; two records with equal creation timestamps receive
equal computed ages whenever the clock values sampled for them coincide
(in particular under a clock that does not advance during the run) — not
unconditionally, since `now` is not snapshotted once at run start. -/
theorem claim_C8_amended_same_now_same_age (env1 env2 : AwsEnv)
    (fk1 fv1 fk2 fv2 : Option String) (d1 d2 : ℤ) (now t a1 a2 : ℚ)
    (r1 r2 : ElbV2LoadBalancer)
    (h1 : r1.createdTime = some t) (h2 : r2.createdTime = some t)
    (hv1 : verdictAgeDays (elbv2_verdict env1 fk1 fv1 d1 now now r1) = some a1)
    (hv2 : verdictAgeDays (elbv2_verdict env2 fk2 fv2 d2 now now r2) = some a2) :
    a1 = a2 := by
  rw [elbv2_verdict_age env1 fk1 fv1 d1 now now r1 t a1 h1 hv1,
    elbv2_verdict_age env2 fk2 fv2 d2 now now r2 t a2 h2 hv2]

/-- Witness for the amended C8: at a shared sampled now, the two idle
records get the same age even at different thresholds. -/
theorem claim_C8_amended_same_now_same_age_witness :
    verdictAgeDays (elbv2_verdict envTwoIdle none none 10 86400 86400 lbIdleA) =
      some (get_age_days 86400 0) ∧
    verdictAgeDays (elbv2_verdict envTwoIdle none none 0 86400 86400 lbIdleB) =
      some (get_age_days 86400 0) ∧
    get_age_days 86400 0 = get_age_days 86400 0 := by
  have hA : verdictAgeDays (elbv2_verdict envTwoIdle none none 10 86400 86400 lbIdleA) =
      some (get_age_days 86400 0) := by
    norm_num [elbv2_verdict, has_required_tag, truthyStr, get_elbv2_tags,
      envTwoIdle, orEmpty, lbIdleA, is_elbv2_inactive, get_target_groups_for_lb,
      is_older_than_threshold, get_age_days, verdictAgeDays]
  have hB : verdictAgeDays (elbv2_verdict envTwoIdle none none 0 86400 86400 lbIdleB) =
      some (get_age_days 86400 0) := by
    norm_num [elbv2_verdict, has_required_tag, truthyStr, get_elbv2_tags,
      envTwoIdle, orEmpty, lbIdleB, is_elbv2_inactive, get_target_groups_for_lb,
      is_older_than_threshold, get_age_days, verdictAgeDays]
  exact ⟨hA, hB, claim_C8_amended_same_now_same_age envTwoIdle envTwoIdle
    none none none none 10 0 86400 0 (get_age_days 86400 0) (get_age_days 86400 0)
    lbIdleA lbIdleB rfl rfl hA hB⟩
